import Mathlib

/-!
Verification development for the query-expression validation core of the
neo4j_ogm repository (src/neo4j_ogm/queries/validators.py), a pydantic-v1
based validator for MongoDB-style filter expressions, together with the
spec-described lowering of validated expressions into Cypher fragments.

The untyped Python input values (JSON-like nested mappings) are embedded as
the inductive type `Value`.  Each pydantic model of the source is embedded as
a parse function mirroring pydantic v1 `parse_obj` semantics for that model:
fields are looked up by alias, values are coerced the way pydantic v1 coerces
them (str-to-int, int-to-str, bool parsing), `Optional` fields accept `null`,
constraint arguments (`gt`, `ge`) are range checks, `Extra.allow` keeps
unrecognized keys while the default `Extra.ignore` drops them, and the
`root_validator` `_validate_properties` post-processes the collected values.

Remarks on fidelity kept throughout the file:
* pydantic v1 collects all field errors while we stop at the first one; this
  changes only the error payload, never whether validation succeeds.
* Python float values and pydantic's exotic dict(...) coercion of iterables of
  pairs are outside the embedded value universe; no claim exercises them.
* recursion through the self-referential pydantic models is embedded with an
  explicit structural fuel argument; `defaultFuel` is far larger than the
  nesting depth of any input considered here.
-/

/-- Untyped input values: the JSON-like structures handed to `parse_obj`. -/
inductive Value where
  | null : Value
  | bool (b : Bool) : Value
  | int (n : Int) : Value
  | str (s : String) : Value
  | list (xs : List Value) : Value
  | dict (kvs : List (String × Value)) : Value

/-- Validation failures, mirroring pydantic `ValidationError` causes. -/
inductive VErr where
  | notADict : VErr
  | invalidOperatorValue (key : String) : VErr
  | fuelExhausted : VErr

/-- First-match lookup of a key in an association list, the embedding of a
Python dict key access (input dicts have unique keys). -/
def lookupKey (key : String) : List (String × Value) → Option Value
  | [] => none
  | (k, v) :: rest => if k = key then some v else lookupKey key rest

/-- Whether a mapping key is an operator key (starts with the `$` prefix). -/
def isDollarKey (s : String) : Bool :=
  match s.data with
  | c :: _ => c = '$'
  | [] => false

/-- Numeric value of a decimal digit character. -/
def digitVal (c : Char) : Option Nat :=
  if '0' ≤ c ∧ c ≤ '9' then some (c.toNat - '0'.toNat) else none

/-- Parse a nonempty run of decimal digits. -/
def parseNatChars : List Char → Option Nat
  | [] => none
  | cs => go cs 0
where
  go : List Char → Nat → Option Nat
  | [], acc => some acc
  | c :: cs, acc =>
    match digitVal c with
    | some d => go cs (acc * 10 + d)
    | none => none

/-- Integer literal parsing as Python `int(...)` does on strings (optional
leading minus sign then digits; Python's tolerated whitespace, plus sign and
underscores are not modelled — no claim depends on them). -/
def parseIntString (s : String) : Option Int :=
  match s.data with
  | [] => none
  | '-' :: rest => (parseNatChars rest).map (fun n => -(n : Int))
  | cs => (parseNatChars cs).map Int.ofNat

/-- pydantic v1 coercion to `int`: ints pass through, bools coerce via
`int(...)`, strings are parsed as integer literals. -/
def coerceInt : Value → Option Int
  | .int n => some n
  | .bool b => some (if b then 1 else 0)
  | .str s => parseIntString s
  | _ => none

/-- pydantic v1 coercion to `str`: strings pass through, ints and bools are
converted with Python `str(...)`. -/
def coerceStr : Value → Option String
  | .str s => some s
  | .int n => some (toString n)
  | .bool b => some (if b then "True" else "False")
  | _ => none

/-- pydantic v1 coercion to `bool`: bools pass through, the ints 0 and 1 and
the usual truthy/falsy strings are accepted. -/
def coerceBool : Value → Option Bool
  | .bool b => some b
  | .int 0 => some false
  | .int 1 => some true
  | .str s =>
    if s ∈ ["1", "on", "t", "true", "y", "yes"] then some true
    else if s ∈ ["0", "off", "f", "false", "n", "no"] then some false
    else none
  | _ => none

/-- Modelled from the spec: the type `TAnyExcludeListDict` lives in
src-absent `neo4j_ogm/queries/types.py`; per the spec the comparison
operators take scalar values, so it accepts every non-list non-dict value. -/
def isScalarValue : Value → Bool
  | .list _ => false
  | .dict _ => false
  | _ => true

/-- Drop the unset/none slots of an optional field list, the embedding of
`dict(by_alias=True, exclude_none=True, exclude_unset=True)`. -/
def collectFields (fs : List (Option (String × Value))) : List (String × Value) :=
  fs.filterMap id

/-- Validation of one optional scalar field: absent fields stay unset,
`null` is accepted by `Optional` (and later dropped by `exclude_none`), and a
present value must coerce. -/
def scalarField (key : String) (coe : Value → Option Value) :
    Option Value → Except VErr (Option (String × Value))
  | none => .ok none
  | some .null => .ok none
  | some v =>
    match coe v with
    | some v' => .ok (some (key, v'))
    | none => .error (.invalidOperatorValue key)

/-- Coercion for the numeric comparison fields (`Union[int, float]`; the
float side is outside the embedded value universe). -/
def coeInt (v : Value) : Option Value := (coerceInt v).map .int

/-- Coercion for the string comparison fields. -/
def coeStr (v : Value) : Option Value := (coerceStr v).map .str

/-- Coercion for the `$exists` field. -/
def coeBool (v : Value) : Option Value := (coerceBool v).map .bool

/-- Coercion for the `$eq`/`$ne` fields typed `TAnyExcludeListDict`. -/
def coeScalar (v : Value) : Option Value :=
  if isScalarValue v then some v else none

/-- Validation of the `$in` field, typed
`Union[List[TAnyExcludeListDict], TAnyExcludeListDict]` (list tried first). -/
def inField : Option Value → Except VErr (Option (String × Value))
  | none => .ok none
  | some .null => .ok none
  | some (.list xs) =>
    if xs.all isScalarValue then .ok (some ("$in", .list xs))
    else .error (.invalidOperatorValue "$in")
  | some v =>
    if isScalarValue v then .ok (some ("$in", v))
    else .error (.invalidOperatorValue "$in")

/-- The dumped fields of a `NumericComparisonValidator` sub-model, used for
the `$size` union member (extras are ignored by the default config). -/
def parseNumericDump (kvs : List (String × Value)) :
    Except VErr (List (String × Value)) := do
  let fgt ← scalarField "$gt" coeInt (lookupKey "$gt" kvs)
  let fgte ← scalarField "$gte" coeInt (lookupKey "$gte" kvs)
  let flt ← scalarField "$lt" coeInt (lookupKey "$lt" kvs)
  let flte ← scalarField "$lte" coeInt (lookupKey "$lte" kvs)
  pure (collectFields [fgt, fgte, flt, flte])

/-- The dumped fields of a `BaseComparisonValidator` sub-model, the second
`$size` union member. -/
def parseBaseDump (kvs : List (String × Value)) :
    Except VErr (List (String × Value)) := do
  let feq ← scalarField "$eq" coeScalar (lookupKey "$eq" kvs)
  let fne ← scalarField "$ne" coeScalar (lookupKey "$ne" kvs)
  pure (collectFields [feq, fne])

/-- Validation of the `$size` field, typed
`Union[NumericComparisonValidator, BaseComparisonValidator]`: pydantic tries
the union members left to right. -/
def sizeField : Option Value → Except VErr (Option (String × Value))
  | none => .ok none
  | some .null => .ok none
  | some (.dict kvs) =>
    match parseNumericDump kvs with
    | .ok d => .ok (some ("$size", .dict d))
    | .error _ =>
      match parseBaseDump kvs with
      | .ok d => .ok (some ("$size", .dict d))
      | .error e => .error e
  | some _ => .error (.invalidOperatorValue "$size")

/-- Validation body shared by `ExpressionValidator` and `LogicalValidator`,
abstracted over the already-recursed element validators and over the field
lookups, so that the recursion lives in one fueled function below.
`elemU` validates one logical operand (`Union[ExpressionValidator,
LogicalValidator]`), `pe` validates one `$not`/`$all` operand.  The result is
the validated model dumped with
`dict(by_alias=True, exclude_none=True, exclude_unset=True)`, with fields in
pydantic's collected order (reverse-MRO base classes first).  Unknown keys do
not appear: both models use the default `Extra.ignore`. -/
def parseELbody (elemU pe : Value → Except VErr Value) (isExpr : Bool)
    (oEq oNe oIn oContains oSw oEw oRegex oGt oGte oLt oLte
     oAnd oOr oXor oNot oAll oSize oEx : Option Value) :
    Except VErr Value := do
  let listField : String → Option Value → Except VErr (Option (String × Value)) :=
    fun key ov =>
      match ov with
      | none => .ok none
      | some .null => .ok none
      | some (.list xs) => (xs.mapM elemU).map (fun ds => some (key, .list ds))
      | some _ => .error (.invalidOperatorValue key)
  if isExpr then do
    let f1 ← scalarField "$eq" coeScalar oEq
    let f2 ← scalarField "$ne" coeScalar oNe
    let f3 ← inField oIn
    let f4 ← scalarField "$contains" coeStr oContains
    let f5 ← scalarField "$startsWith" coeStr oSw
    let f6 ← scalarField "$endsWith" coeStr oEw
    let f7 ← scalarField "$regex" coeStr oRegex
    let f8 ← scalarField "$gt" coeInt oGt
    let f9 ← scalarField "$gte" coeInt oGte
    let f10 ← scalarField "$lt" coeInt oLt
    let f11 ← scalarField "$lte" coeInt oLte
    let f12 ← listField "$and" oAnd
    let f13 ← listField "$or" oOr
    let f14 ← listField "$xor" oXor
    let f15 ←
      match oNot with
      | none => pure (none : Option (String × Value))
      | some .null => pure none
      | some nv => (pe nv).map (fun d => some ("$not", d))
    let f16 ←
      match oAll with
      | none => pure (none : Option (String × Value))
      | some .null => pure none
      | some (.list xs) => (xs.mapM pe).map (fun ds => some ("$all", .list ds))
      | some _ => .error (.invalidOperatorValue "$all")
    let f17 ← sizeField oSize
    let f18 ← scalarField "$exists" coeBool oEx
    pure (.dict (collectFields
      [f1, f2, f3, f4, f5, f6, f7, f8, f9, f10, f11, f12, f13, f14, f15, f16, f17, f18]))
  else do
    let f12 ← listField "$and" oAnd
    let f13 ← listField "$or" oOr
    let f14 ← listField "$xor" oXor
    pure (.dict (collectFields [f12, f13, f14]))

/-- Fueled validation of `ExpressionValidator` (mode `true`) and
`LogicalValidator` (mode `false`): `parse_obj` requires a mapping, then each
field is validated from its alias lookup.  A logical operand is validated as
`Union[ExpressionValidator, LogicalValidator]`, trying the members left to
right exactly as pydantic does. -/
def parseELcore : Nat → Bool → Value → Except VErr Value
  | 0, _, _ => .error .fuelExhausted
  | fuel + 1, isExpr, v =>
    match v with
    | .dict kvs =>
      parseELbody
        (fun x =>
          match parseELcore fuel true x with
          | .ok d => .ok d
          | .error _ => parseELcore fuel false x)
        (fun x => parseELcore fuel true x)
        isExpr
        (lookupKey "$eq" kvs) (lookupKey "$ne" kvs) (lookupKey "$in" kvs)
        (lookupKey "$contains" kvs) (lookupKey "$startsWith" kvs)
        (lookupKey "$endsWith" kvs) (lookupKey "$regex" kvs)
        (lookupKey "$gt" kvs) (lookupKey "$gte" kvs) (lookupKey "$lt" kvs)
        (lookupKey "$lte" kvs) (lookupKey "$and" kvs) (lookupKey "$or" kvs)
        (lookupKey "$xor" kvs) (lookupKey "$not" kvs) (lookupKey "$all" kvs)
        (lookupKey "$size" kvs) (lookupKey "$exists" kvs)
    | _ => .error .notADict

/-- Fuel used by the `parse_obj` entry points; far deeper than any input
considered in this development. -/
def defaultFuel : Nat := 64

/-- Validation of `ExpressionValidator.parse_obj` followed by the dump
`dict(by_alias=True, exclude_none=True, exclude_unset=True)` applied to it in
`_validate_properties`. -/
def ExpressionValidator.parse (fuel : Nat) (v : Value) : Except VErr Value :=
  parseELcore fuel true v

/-- Entry point for `ExpressionValidator` validation. -/
def ExpressionValidator.parse_obj (v : Value) : Except VErr Value :=
  ExpressionValidator.parse defaultFuel v

/-- Validation of `LogicalValidator.parse_obj` with the same dump. -/
def LogicalValidator.parse (fuel : Nat) (v : Value) : Except VErr Value :=
  parseELcore fuel false v

example : ExpressionValidator.parse_obj (.dict [("$gt", .int 18)]) =
    .ok (.dict [("$gt", .int 18)]) := by rfl

example : ExpressionValidator.parse_obj (.dict [("$gt", .str "not-a-number")]) =
    .error (.invalidOperatorValue "$gt") := by rfl

example : ExpressionValidator.parse_obj
    (.dict [("$bogus", .str "x"), ("$eq", .str "Alice")]) =
    .ok (.dict [("$eq", .str "Alice")]) := by rfl

example : ExpressionValidator.parse_obj (.dict [("$and", .list [])]) =
    .ok (.dict [("$and", .list [])]) := by rfl

/-- The root validator `_validate_properties` shared by `NodeValidator` and
`RelationshipValidator`.  In pydantic v1 it receives every collected value:
the declared fields (keyed by field name, which never starts with `$`, whose
values are never mappings, so `ExpressionValidator.parse_obj` always raises
and leaves them unchanged) and the `Extra.allow` extras keyed by input key.
Hence it is applied here to the extras: keys starting with `$` are skipped,
other keys (property names) have their value validated as an
`ExpressionValidator` and replaced by the dumped validated model; on a
`ValidationError` the raw value is left in place (the except branch only
logs). -/
def _validate_properties (fuel : Nat) (values : List (String × Value)) :
    List (String × Value) :=
  values.map fun kv =>
    if isDollarKey kv.1 then kv
    else
      match ExpressionValidator.parse fuel kv.2 with
      | .ok d => (kv.1, d)
      | .error _ => kv

/-- Validation of one optional field with a typed (non-`Value`) result. -/
def typedField {α : Type} (key : String) (coe : Value → Option α) :
    Option Value → Except VErr (Option α)
  | none => .ok none
  | some .null => .ok none
  | some v =>
    match coe v with
    | some x => .ok (some x)
    | none => .error (.invalidOperatorValue key)

/-- Validation of the `$hops` field of `RelationshipValidator`:
`Optional[int] = Field(alias="$hops", default=1, gt=0)` — absent means the
default `1`, a present value must coerce to an int and be positive. -/
def hopsField : Option Value → Except VErr (Option Int)
  | none => .ok (some 1)
  | some .null => .ok none
  | some v =>
    match coerceInt v with
    | some n => if 0 < n then .ok (some n) else .error (.invalidOperatorValue "$hops")
    | none => .error (.invalidOperatorValue "$hops")

/-- Validation of the `$labels` field, typed `Optional[List[str]]`. -/
def labelsField : Option Value → Except VErr (Option (List String))
  | none => .ok none
  | some .null => .ok none
  | some (.list xs) =>
    match xs.mapM coerceStr with
    | some ss => .ok (some ss)
    | none => .error (.invalidOperatorValue "$labels")
  | some _ => .error (.invalidOperatorValue "$labels")

/-- Available relationship directions for pattern expressions. -/
inductive PatternDirection where
  | INCOMING : PatternDirection
  | OUTGOING : PatternDirection
  | BOTH : PatternDirection

/-- pydantic enum validation for `PatternDirection` (a `str` enum looked up
by value). -/
def coerceDirection : Value → Option PatternDirection
  | .str "INCOMING" => some .INCOMING
  | .str "OUTGOING" => some .OUTGOING
  | .str "BOTH" => some .BOTH
  | _ => none

/-- Validation of the `$direction` field:
`Optional[PatternDirection] = Field(alias="$direction",
default=PatternDirection.BOTH)` — absent means the default `BOTH`, a present
value must be a valid direction, an invalid one raises. -/
def directionField : Option Value → Except VErr (Option PatternDirection)
  | none => .ok (some .BOTH)
  | some .null => .ok none
  | some v =>
    match coerceDirection v with
    | some d => .ok (some d)
    | none => .error (.invalidOperatorValue "$direction")

/-- The validated `RelationshipValidator` model: the declared fields plus the
`Extra.allow` extras after the root validator ran over them. -/
structure RelationshipModel where
  element_id_operator : Option String
  id_operator : Option Int
  type_operator : Option String
  hops_operator : Option Int
  extras : List (String × Value)

/-- The aliases of the declared `RelationshipValidator` fields. -/
def relationshipAliasKeys : List String := ["$elementId", "$id", "$type", "$hops"]

/-- Validation of `RelationshipValidator`: field validation in declaration
order (`$elementId`, `$id` inherited from `ElementValidator`, then `$type`,
`$hops`), extras kept by `Extra.allow`, then the root validator
`_validate_properties`. -/
def RelationshipValidator.parse (fuel : Nat) (v : Value) :
    Except VErr RelationshipModel :=
  match v with
  | .dict kvs =>
    match typedField "$elementId" coerceStr (lookupKey "$elementId" kvs) with
    | .error e => .error e
    | .ok a =>
      match typedField "$id" coerceInt (lookupKey "$id" kvs) with
      | .error e => .error e
      | .ok b =>
        match typedField "$type" coerceStr (lookupKey "$type" kvs) with
        | .error e => .error e
        | .ok c =>
          match hopsField (lookupKey "$hops" kvs) with
          | .error e => .error e
          | .ok d =>
            .ok { element_id_operator := a, id_operator := b,
                  type_operator := c, hops_operator := d,
                  extras := _validate_properties fuel
                    (kvs.filter (fun kv => !(relationshipAliasKeys.contains kv.1))) }
  | _ => .error .notADict

/-- Entry point for `RelationshipValidator` validation. -/
def RelationshipValidator.parse_obj (v : Value) : Except VErr RelationshipModel :=
  RelationshipValidator.parse defaultFuel v

mutual
/-- The validated `NodeValidator` model: the declared fields plus the
`Extra.allow` extras after the root validator ran over them. -/
inductive NodeModel where
  | mk (element_id_operator : Option String) (id_operator : Option Int)
      (labels_operator : Option (List String))
      (pattern_operator : Option (List NodePatternModel))
      (extras : List (String × Value)) : NodeModel

/-- The validated `NodePatternValidator` model. -/
inductive NodePatternModel where
  | mk (node_operator : Option NodeModel)
      (direction_operator : Option PatternDirection)
      (relationship_operator : Option RelationshipModel) : NodePatternModel
end

/-- The extras kept on a validated node model. -/
def NodeModel.extras : NodeModel → List (String × Value)
  | .mk _ _ _ _ e => e

/-- The direction kept on a validated pattern model. -/
def NodePatternModel.direction_operator : NodePatternModel → Option PatternDirection
  | .mk _ d _ => d

/-- The aliases of the declared `NodeValidator` fields. -/
def nodeAliasKeys : List String := ["$elementId", "$id", "$labels", "$pattern"]

/-- Validation body of `NodeValidator`, abstracted over the already-recursed
`$pattern` element validator: field validation in declaration order
(`$elementId`, `$id`, `$labels`, `$pattern`), extras kept by `Extra.allow`,
then the root validator `_validate_properties`. -/
def parseNVbody (pPat : List Value → Except VErr (List NodePatternModel))
    (fuel : Nat) (kvs : List (String × Value)) : Except VErr NodeModel :=
  match typedField "$elementId" coerceStr (lookupKey "$elementId" kvs) with
  | .error e => .error e
  | .ok a =>
    match typedField "$id" coerceInt (lookupKey "$id" kvs) with
    | .error e => .error e
    | .ok b =>
      match labelsField (lookupKey "$labels" kvs) with
      | .error e => .error e
      | .ok c =>
        match ((match lookupKey "$pattern" kvs with
                | none => .ok none
                | some .null => .ok none
                | some (.list xs) => (pPat xs).map some
                | some _ => .error (.invalidOperatorValue "$pattern")) :
                Except VErr (Option (List NodePatternModel))) with
        | .error e => .error e
        | .ok d =>
          .ok (NodeModel.mk a b c d
            (_validate_properties fuel
              (kvs.filter (fun kv => !(nodeAliasKeys.contains kv.1)))))

/-- Validation body of `NodePatternValidator`, abstracted over the
already-recursed `$node` validator: fields `$node`, `$direction` (default
`BOTH`), `$relationship`; the default config ignores extra keys. -/
def parseNPVbody (pn : Value → Except VErr NodeModel) (fuel : Nat) (v : Value) :
    Except VErr NodePatternModel :=
  match v with
  | .dict kvs =>
    match ((match lookupKey "$node" kvs with
            | none => .ok none
            | some .null => .ok none
            | some nv => (pn nv).map some) : Except VErr (Option NodeModel)) with
    | .error e => .error e
    | .ok n =>
      match directionField (lookupKey "$direction" kvs) with
      | .error e => .error e
      | .ok d =>
        match ((match lookupKey "$relationship" kvs with
                | none => .ok none
                | some .null => .ok none
                | some rv => (RelationshipValidator.parse fuel rv).map some) :
                Except VErr (Option RelationshipModel)) with
        | .error e => .error e
        | .ok r => .ok (NodePatternModel.mk n d r)
  | _ => .error .notADict

/-- Fueled validation of `NodeValidator`: the recursion
`NodeValidator → $pattern elements → NodePatternValidator → $node →
NodeValidator` consumes one fuel per pattern nesting level. -/
def parseNV : Nat → Value → Except VErr NodeModel
  | 0, _ => .error .fuelExhausted
  | fuel + 1, v =>
    match v with
    | .dict kvs =>
      parseNVbody
        (fun xs => xs.mapM (fun x =>
          parseNPVbody (fun nv => parseNV fuel nv) (fuel + 1) x))
        (fuel + 1) kvs
    | _ => .error .notADict

/-- Entry point for `NodeValidator` validation. -/
def NodeValidator.parse_obj (v : Value) : Except VErr NodeModel :=
  parseNV defaultFuel v

/-- Entry point for `NodePatternValidator` validation. -/
def NodePatternValidator.parse_obj (v : Value) : Except VErr NodePatternModel :=
  parseNPVbody (fun nv => parseNV defaultFuel nv) defaultFuel v

example : NodeValidator.parse_obj (.dict [("age", .dict [("$gt", .int 18)])]) =
    .ok (.mk none none none none [("age", .dict [("$gt", .int 18)])]) := by rfl

example : NodeValidator.parse_obj (.dict [("$and", .list [])]) =
    .ok (.mk none none none none [("$and", .list [])]) := by rfl

example : NodeValidator.parse_obj
    (.dict [("age", .dict [("$gt", .str "not-a-number")])]) =
    .ok (.mk none none none none
      [("age", .dict [("$gt", .str "not-a-number")])]) := by rfl

example : RelationshipValidator.parse_obj (.dict [("$hops", .int 0)]) =
    .error (.invalidOperatorValue "$hops") := by rfl

example : RelationshipValidator.parse_obj (.dict [("$hops", .int 3)]) =
    .ok { element_id_operator := none, id_operator := none, type_operator := none,
          hops_operator := some 3, extras := [] } := by rfl

example : NodePatternValidator.parse_obj (.dict [("$direction", .str "SIDEWAYS")]) =
    .error (.invalidOperatorValue "$direction") := by rfl

example : NodePatternValidator.parse_obj (.dict []) =
    .ok (.mk none (some .BOTH) none) := by rfl

/-- The validated `QueryOptionsValidator` model (`use_enum_values = True`
stores the query order as its string value). -/
structure QueryOptionsModel where
  limit : Option Int
  skip : Option Int
  sort : Option (String ⊕ List String)
  order : Option String

/-- Validation of the `limit` field:
`Optional[int] = Field(default=None, ge=1)`. -/
def limitField : Option Value → Except VErr (Option Int)
  | none => .ok none
  | some .null => .ok none
  | some v =>
    match coerceInt v with
    | some n => if 1 ≤ n then .ok (some n) else .error (.invalidOperatorValue "limit")
    | none => .error (.invalidOperatorValue "limit")

/-- Validation of the `skip` field:
`Optional[int] = Field(default=None, ge=0)`. -/
def skipField : Option Value → Except VErr (Option Int)
  | none => .ok none
  | some .null => .ok none
  | some v =>
    match coerceInt v with
    | some n => if 0 ≤ n then .ok (some n) else .error (.invalidOperatorValue "skip")
    | none => .error (.invalidOperatorValue "skip")

/-- Validation of the `sort` field, typed `Optional[Union[str, list[str]]]`
(union members tried left to right). -/
def sortField : Option Value → Except VErr (Option (String ⊕ List String))
  | none => .ok none
  | some .null => .ok none
  | some v =>
    match coerceStr v with
    | some s => .ok (some (.inl s))
    | none =>
      match v with
      | .list xs =>
        match xs.mapM coerceStr with
        | some ss => .ok (some (.inr ss))
        | none => .error (.invalidOperatorValue "sort")
      | _ => .error (.invalidOperatorValue "sort")

/-- Validation of the `order` field, typed `Optional[QueryOrder]` with
`use_enum_values = True`. -/
def orderField : Option Value → Except VErr (Option String)
  | none => .ok none
  | some .null => .ok none
  | some (.str "ASC") => .ok (some "ASC")
  | some (.str "DESC") => .ok (some "DESC")
  | some _ => .error (.invalidOperatorValue "order")

/-- Validation of `QueryOptionsValidator`: fields `limit`, `skip`, `sort`,
`order` (no aliases; the default config ignores extra keys). -/
def QueryOptionsValidator.parse_obj (v : Value) : Except VErr QueryOptionsModel :=
  match v with
  | .dict kvs =>
    match limitField (lookupKey "limit" kvs) with
    | .error e => .error e
    | .ok a =>
      match skipField (lookupKey "skip" kvs) with
      | .error e => .error e
      | .ok b =>
        match sortField (lookupKey "sort" kvs) with
        | .error e => .error e
        | .ok c =>
          match orderField (lookupKey "order" kvs) with
          | .error e => .error e
          | .ok d => .ok { limit := a, skip := b, sort := c, order := d }
  | _ => .error .notADict

example : QueryOptionsValidator.parse_obj (.dict [("limit", .int 0)]) =
    .error (.invalidOperatorValue "limit") := by rfl

example : QueryOptionsValidator.parse_obj (.dict []) =
    .ok { limit := none, skip := none, sort := none, order := none } := by rfl

/-- Checks whether the first list is a prefix of the second. -/
def isPrefixOfChars : List Char → List Char → Bool
  | [], _ => true
  | _ :: _, [] => false
  | a :: as, b :: bs => a = b && isPrefixOfChars as bs

/-- Fueled replacement of every occurrence of `pat` in `s` by `rep` (the fuel
is instantiated with the length of `s`, which suffices for nonempty `pat`). -/
def substChars (pat rep : List Char) : Nat → List Char → List Char
  | 0, s => s
  | _ + 1, [] => []
  | fuel + 1, c :: cs =>
    if isPrefixOfChars pat (c :: cs) then
      rep ++ substChars pat rep fuel (List.drop pat.length (c :: cs))
    else c :: substChars pat rep fuel cs

/-- Template placeholder substitution used by the lowerer. -/
def substituteAll (pat rep s : String) : String :=
  ⟨substChars pat.data rep.data s.data.length s.data⟩

example : substituteAll "{property_name}" "e.age" "{property_name} > ${value}" =
    "e.age > ${value}" := by rfl

/-- Decimal rendering of a parameter counter. -/
def natToStr (n : Nat) : String :=
  ⟨go (n + 1) n⟩
where
  go : Nat → Nat → List Char
  | 0, _ => []
  | fuel + 1, n =>
    if n < 10 then [Char.ofNat (48 + n)]
    else go fuel (n / 10) ++ [Char.ofNat (48 + n % 10)]

/-- The Cypher fragment template of each comparison operator, exactly the
`extra={"parser": ...}` strings attached to the source `Field` declarations
of the comparison validators. -/
def comparisonTemplate : String → Option String
  | "$gt" => some "{property_name} > ${value}"
  | "$gte" => some "{property_name} >= ${value}"
  | "$lt" => some "{property_name} < ${value}"
  | "$lte" => some "{property_name} <= ${value}"
  | "$eq" => some "{property_name} = ${value}"
  | "$ne" => some "NOT({property_name} = ${value})"
  | "$contains" => some "{property_name} CONTAINS ${value}"
  | "$startsWith" => some "{property_name} STARTS WITH ${value}"
  | "$endsWith" => some "{property_name} ENDS WITH ${value}"
  | "$regex" => some "{property_name} =~ ${value}"
  | _ => none

/-- Modelled from the spec: the Expression Lowerer (the query-builder module
of this repository) is not under src/, only the operator templates are (as
the `parser` extras embedded in `comparisonTemplate`).  Per spec section 4.3,
a `Comparison{op, prop, value}` lowers to the operator's template with
`{property_name}` substituted by `entityRef.prop` and `{value}` substituted
by a freshly allocated `param_N` name (post-incrementing counter), binding
the value under that name in the parameter mapping.  This function lowers the
comparison list of one property filter; operator keys without a comparison
template are outside the modelled Comparison rule and are passed over. -/
def lowerComparisons (ref prop : String) :
    List (String × Value) → Nat → (List String × List (String × Value) × Nat)
  | [], n => ([], [], n)
  | (k, v) :: rest, n =>
    match comparisonTemplate k with
    | none => lowerComparisons ref prop rest n
    | some t =>
      let pname := "param_" ++ natToStr n
      let frag := substituteAll "${value}" ("$" ++ pname)
        (substituteAll "{property_name}" (ref ++ "." ++ prop) t)
      let r := lowerComparisons ref prop rest (n + 1)
      (frag :: r.1, (pname, v) :: r.2.1, r.2.2)

/-- Joining of lowered fragments with a separator keyword. -/
def joinSep (sep : String) : List String → String
  | [] => ""
  | [s] => s
  | s :: rest => s ++ sep ++ joinSep sep rest

/-- Modelled from the spec: lowering of the property filters of a validated
node expression with entity reference `ref`.  Per spec section 4.3, each
`PropertyFilter{prop, comparisons}` lowers its comparisons with
`entityRef.prop` substituted, multiple comparisons under one property are
joined with `AND` (implicit conjunction), property filters are joined with
`AND`, and an empty node lowers to the literal `TRUE`. -/
def lowerNodeProperties (ref : String) (m : NodeModel) :
    String × List (String × Value) :=
  let r := go (m.extras) 0
  (if r.1.isEmpty then "TRUE" else joinSep " AND " r.1, r.2.1)
where
  go : List (String × Value) → Nat → (List String × List (String × Value) × Nat)
  | [], n => ([], [], n)
  | (p, .dict ops) :: rest, n =>
    if isDollarKey p then go rest n
    else
      let c := lowerComparisons ref p ops n
      let r := go rest c.2.2
      (c.1 ++ r.1, c.2.1 ++ r.2.1, r.2.2)
  | _ :: rest, n => go rest n

example : (NodeValidator.parse_obj (.dict [("age", .dict [("$gt", .int 18)])])).map
    (lowerNodeProperties "e") =
    .ok ("e.age > $param_0", [("param_0", Value.int 18)]) := by rfl

/-- C1 counterexample: validating the mapping with key `$and` and an empty
list under NodeContext does not fail at all — `NodeValidator` keeps the
`Extra.allow` extra unchanged, and even `ExpressionValidator`, which declares
the `$and` field, accepts the empty operand list (the field carries no
minimum-length constraint), so no `EmptyLogicalOperand` failure exists. -/
theorem claim_C1_counterexample :
    NodeValidator.parse_obj (.dict [("$and", .list [])]) =
      .ok (.mk none none none none [("$and", .list [])]) ∧
    ExpressionValidator.parse_obj (.dict [("$and", .list [])]) =
      .ok (.dict [("$and", .list [])]) :=
  ⟨rfl, rfl⟩

/-- C1 amended: for every logical operator key (`$and`, `$or`, `$xor`) whose
value is a zero-length sequence, validation succeeds in either context — the
empty operand list is accepted and kept, and no `EmptyLogicalOperand`
failure arises. -/
theorem claim_C1_theorem (k : String)
    (h : k = "$and" ∨ k = "$or" ∨ k = "$xor") :
    ExpressionValidator.parse_obj (.dict [(k, .list [])]) =
      .ok (.dict [(k, .list [])]) ∧
    NodeValidator.parse_obj (.dict [(k, .list [])]) =
      .ok (.mk none none none none [(k, .list [])]) ∧
    RelationshipValidator.parse_obj (.dict [(k, .list [])]) =
      .ok { element_id_operator := none, id_operator := none,
            type_operator := none, hops_operator := some 1,
            extras := [(k, .list [])] } := by
  rcases h with h | h | h <;> subst h <;> exact ⟨rfl, rfl, rfl⟩

/-- C1 witness: the amended statement instantiated at `$and`. -/
theorem claim_C1_witness :
    ExpressionValidator.parse_obj (.dict [("$and", .list [])]) =
      .ok (.dict [("$and", .list [])]) :=
  ( claim_C1_theorem "$and" (Or.inl rfl)).1

/-- C2 counterexample: the property sub-mapping with `$gt` at the string
value "not-a-number" fails shape validation as an `ExpressionValidator`
(second conjunct), yet validating the node expression binding it to the
property `age` under NodeContext succeeds, with the offending property kept
at its raw value — the typed failure is silently swallowed by the broad
except branch of `_validate_properties`, never surfaced to the caller. -/
theorem claim_C2_counterexample :
    NodeValidator.parse_obj
        (.dict [("age", .dict [("$gt", .str "not-a-number")])]) =
      .ok (.mk none none none none
        [("age", .dict [("$gt", .str "not-a-number")])]) ∧
    ExpressionValidator.parse_obj (.dict [("$gt", .str "not-a-number")]) =
      .error (.invalidOperatorValue "$gt") :=
  ⟨rfl, rfl⟩

/-- C2 amended: a value-shape failure of a recognized operator inside a
property sub-mapping is silently swallowed: whenever the sub-mapping fails
`ExpressionValidator` validation, validating the node expression that binds
it to a property succeeds and keeps the property at its raw value. -/
theorem claim_C2_theorem (v : Value)
    (h : ∃ e, ExpressionValidator.parse_obj v = .error e) :
    NodeValidator.parse_obj (.dict [("age", v)]) =
      .ok (.mk none none none none [("age", v)]) := by
  obtain ⟨e, hp⟩ := h
  have hp' : ExpressionValidator.parse 64 v = .error e := hp
  have hd : isDollarKey "age" = false := rfl
  show (Except.ok (NodeModel.mk none none none none
      (_validate_properties 64 [("age", v)])) : Except VErr NodeModel) =
    .ok (.mk none none none none [("age", v)])
  simp only [_validate_properties, List.map, hd, Bool.false_eq_true,
    if_false, hp']

/-- C2 witness: the amended statement instantiated at the claim's own
example sub-mapping. -/
theorem claim_C2_witness :
    NodeValidator.parse_obj
        (.dict [("age", .dict [("$gt", .str "not-a-number")])]) =
      .ok (.mk none none none none
        [("age", .dict [("$gt", .str "not-a-number")])]) :=
  claim_C2_theorem (.dict [("$gt", .str "not-a-number")])
    ⟨.invalidOperatorValue "$gt", rfl⟩

/-- C6 counterexample: a logical operator is accepted inside a `$all` value —
the `$all` field is typed `List[ExpressionValidator]`, the full expression
grammar, so the element with the `$and` operator validates and the `$and`
key survives into the validated value, contradicting the claimed restriction
to the numeric/general comparison sub-grammar. -/
theorem claim_C6_counterexample :
    ExpressionValidator.parse_obj
        (.dict [("$all", .list [.dict [("$and", .list [.dict [("$eq", .int 1)]])]])]) =
      .ok (.dict [("$all", .list [.dict [("$and", .list [.dict [("$eq", .int 1)]])]])]) :=
  rfl

/-- C6 amended: only `$size` is validated against the restricted
numeric/general comparison sub-grammar (its union of
`NumericComparisonValidator` and `BaseComparisonValidator` drops a nested
`$and`, which does not survive into the validated value), while `$all`
recursively validates its elements against the full expression grammar, so
logical operators such as `$and` are accepted inside `$all`. -/
theorem claim_C6_theorem :
    ExpressionValidator.parse_obj
        (.dict [("$size", .dict [("$and", .list [.dict [("$eq", .int 1)]])])]) =
      .ok (.dict [("$size", .dict [])]) ∧
    ExpressionValidator.parse_obj
        (.dict [("$all", .list [.dict [("$and", .list [.dict [("$eq", .int 1)]])]])]) =
      .ok (.dict [("$all", .list [.dict [("$and", .list [.dict [("$eq", .int 1)]])]])]) :=
  ⟨rfl, rfl⟩

/-- C4: validating the mapping binding `$hops` to an integer under
RelationshipContext fails with `InvalidOperatorValue` for every integer
`h ≤ 0` (the `gt=0` field constraint), and succeeds for every positive
integer `h`, carrying the supplied hop count. -/
theorem claim_C4_theorem (h : Int) :
    (h ≤ 0 → RelationshipValidator.parse_obj (.dict [("$hops", .int h)]) =
      .error (.invalidOperatorValue "$hops")) ∧
    (0 < h → RelationshipValidator.parse_obj (.dict [("$hops", .int h)]) =
      .ok { element_id_operator := none, id_operator := none,
            type_operator := none, hops_operator := some h, extras := [] }) := by
  have hred : RelationshipValidator.parse_obj (.dict [("$hops", .int h)]) =
      (match (if 0 < h then (Except.ok (some h) : Except VErr (Option Int))
              else .error (.invalidOperatorValue "$hops")) with
       | .error e => (.error e : Except VErr RelationshipModel)
       | .ok d =>
         .ok { element_id_operator := none, id_operator := none,
               type_operator := none, hops_operator := d, extras := [] }) := rfl
  constructor
  · intro hle
    rw [hred, if_neg (by omega)]
  · intro hpos
    rw [hred, if_pos hpos]

/-- C4 witness: the statement instantiated at the claim's own examples,
`$hops` bound to 0 (failure) and to 3 (success). -/
theorem claim_C4_witness :
    RelationshipValidator.parse_obj (.dict [("$hops", .int 0)]) =
      .error (.invalidOperatorValue "$hops") ∧
    RelationshipValidator.parse_obj (.dict [("$hops", .int 3)]) =
      .ok { element_id_operator := none, id_operator := none,
            type_operator := none, hops_operator := some 3, extras := [] } :=
  ⟨(claim_C4_theorem 0).1 (by omega), (claim_C4_theorem 3).2 (by omega)⟩

/-- C9: whenever a relationship expression validates successfully under
RelationshipContext and the `$hops` key is absent from the input mapping,
the validated model carries the default hop count 1 (from
`Field(default=1)`), not an unset value. -/
theorem claim_C9_theorem (kvs : List (String × Value))
    (hnone : lookupKey "$hops" kvs = none) (m : RelationshipModel)
    (hok : RelationshipValidator.parse_obj (.dict kvs) = .ok m) :
    m.hops_operator = some 1 := by
  simp only [RelationshipValidator.parse_obj, defaultFuel,
    RelationshipValidator.parse, hnone] at hok
  simp only [hopsField] at hok
  split at hok
  · exact Except.noConfusion hok
  · split at hok
    · exact Except.noConfusion hok
    · split at hok
      · exact Except.noConfusion hok
      · injection hok with h2
        subst h2
        rfl

/-- C9 witness: the statement instantiated at the empty relationship
expression, which validates to a model with hop count 1. -/
theorem claim_C9_witness :
    lookupKey "$hops" [] = none ∧
    RelationshipModel.hops_operator
      { element_id_operator := none, id_operator := none, type_operator := none,
        hops_operator := some 1, extras := [] } = some 1 :=
  ⟨rfl, claim_C9_theorem [] rfl _ rfl⟩

/-- C10: query-options validation accepts an integer limit value exactly
when it is at least 1 and an integer skip value exactly when it is at least
0 (the `ge` field constraints), failing otherwise, and both fields may be
omitted, defaulting to no limit and no skip. -/
theorem claim_C10_theorem (n : Int) :
    (n ≤ 0 → QueryOptionsValidator.parse_obj (.dict [("limit", .int n)]) =
      .error (.invalidOperatorValue "limit")) ∧
    (1 ≤ n → QueryOptionsValidator.parse_obj (.dict [("limit", .int n)]) =
      .ok { limit := some n, skip := none, sort := none, order := none }) ∧
    (n < 0 → QueryOptionsValidator.parse_obj (.dict [("skip", .int n)]) =
      .error (.invalidOperatorValue "skip")) ∧
    (0 ≤ n → QueryOptionsValidator.parse_obj (.dict [("skip", .int n)]) =
      .ok { limit := none, skip := some n, sort := none, order := none }) ∧
    QueryOptionsValidator.parse_obj (.dict []) =
      .ok { limit := none, skip := none, sort := none, order := none } := by
  have hlim : QueryOptionsValidator.parse_obj (.dict [("limit", .int n)]) =
      (match (if 1 ≤ n then (Except.ok (some n) : Except VErr (Option Int))
              else .error (.invalidOperatorValue "limit")) with
       | .error e => (.error e : Except VErr QueryOptionsModel)
       | .ok a => .ok { limit := a, skip := none, sort := none, order := none }) :=
    rfl
  have hskip : QueryOptionsValidator.parse_obj (.dict [("skip", .int n)]) =
      (match (if 0 ≤ n then (Except.ok (some n) : Except VErr (Option Int))
              else .error (.invalidOperatorValue "skip")) with
       | .error e => (.error e : Except VErr QueryOptionsModel)
       | .ok b => .ok { limit := none, skip := b, sort := none, order := none }) :=
    rfl
  refine ⟨fun hle => ?_, fun hge => ?_, fun hlt => ?_, fun hge0 => ?_, rfl⟩
  · rw [hlim, if_neg (by omega)]
  · rw [hlim, if_pos hge]
  · rw [hskip, if_neg (by omega)]
  · rw [hskip, if_pos hge0]

/-- C10 witness: the statement instantiated at representative integers —
limit 0 rejected, limit 2 accepted, skip negative 1 rejected, skip 0
accepted. -/
theorem claim_C10_witness :
    QueryOptionsValidator.parse_obj (.dict [("limit", .int 0)]) =
      .error (.invalidOperatorValue "limit") ∧
    QueryOptionsValidator.parse_obj (.dict [("limit", .int 2)]) =
      .ok { limit := some 2, skip := none, sort := none, order := none } ∧
    QueryOptionsValidator.parse_obj (.dict [("skip", .int (-1))]) =
      .error (.invalidOperatorValue "skip") ∧
    QueryOptionsValidator.parse_obj (.dict [("skip", .int 0)]) =
      .ok { limit := none, skip := some 0, sort := none, order := none } :=
  ⟨(claim_C10_theorem 0).1 (by omega), (claim_C10_theorem 2).2.1 (by omega),
   (claim_C10_theorem (-1)).2.2.1 (by omega),
   (claim_C10_theorem 0).2.2.2.1 (by omega)⟩

/-- Unfolding step of the fueled node validation at a mapping input. -/
theorem parseNV_dict (fuel : Nat) (kvs : List (String × Value)) :
    parseNV (fuel + 1) (.dict kvs) = parseNVbody
      (fun xs => xs.mapM (fun x =>
        parseNPVbody (fun nv => parseNV fuel nv) (fuel + 1) x))
      (fuel + 1) kvs := rfl

/-- C7 counterexample: a `$direction` value that is not a valid direction
does not default to `BOTH` — it fails validation of the pattern expression
(and of the whole node expression containing it under `$pattern`),
contradicting the claimed fallback for invalid values. -/
theorem claim_C7_counterexample :
    NodePatternValidator.parse_obj (.dict [("$direction", .str "SIDEWAYS")]) =
      .error (.invalidOperatorValue "$direction") ∧
    NodeValidator.parse_obj
        (.dict [("$pattern", .list [.dict [("$direction", .str "SIDEWAYS")]])]) =
      .error (.invalidOperatorValue "$direction") :=
  ⟨rfl, rfl⟩

/-- C7 amended: the validated pattern direction is `BOTH` exactly when the
`$direction` key is absent (the field default); a present valid direction
string is kept as supplied; a present invalid direction value makes the
pattern expression fail validation instead of defaulting to `BOTH`. -/
theorem claim_C7_theorem :
    NodePatternValidator.parse_obj (.dict []) =
      .ok (.mk none (some .BOTH) none) ∧
    (∀ (s : String) (d : PatternDirection), coerceDirection (.str s) = some d →
      NodePatternValidator.parse_obj (.dict [("$direction", .str s)]) =
        .ok (.mk none (some d) none)) ∧
    (∀ s : String, coerceDirection (.str s) = none →
      NodePatternValidator.parse_obj (.dict [("$direction", .str s)]) =
        .error (.invalidOperatorValue "$direction")) := by
  have hred : ∀ s : String,
      NodePatternValidator.parse_obj (.dict [("$direction", .str s)]) =
      (match (match coerceDirection (.str s) with
              | some d => (Except.ok (some d) : Except VErr (Option PatternDirection))
              | none => .error (.invalidOperatorValue "$direction")) with
       | .error e => (.error e : Except VErr NodePatternModel)
       | .ok d => .ok (.mk none d none)) := fun _ => rfl
  refine ⟨rfl, fun s d hcd => ?_, fun s hcd => ?_⟩
  · rw [hred s, hcd]
  · rw [hred s, hcd]

/-- C7 witness: the amended statement instantiated at the valid direction
string OUTGOING (kept as supplied) and at the invalid string INVALID
(validation failure). -/
theorem claim_C7_witness :
    NodePatternValidator.parse_obj (.dict [("$direction", .str "OUTGOING")]) =
      .ok (.mk none (some .OUTGOING) none) ∧
    NodePatternValidator.parse_obj (.dict [("$direction", .str "INVALID")]) =
      .error (.invalidOperatorValue "$direction") :=
  ⟨claim_C7_theorem.2.1 "OUTGOING" .OUTGOING rfl,
   claim_C7_theorem.2.2 "INVALID" rfl⟩

/-- C3 counterexample: the relationship-only operator `$type` under
NodeContext is not dropped — `Extra.allow` keeps the key, so it survives
unchanged into the validated node expression, contradicting the claimed
drop. -/
theorem claim_C3_counterexample :
    NodeValidator.parse_obj (.dict [("$type", .str "FRIENDS")]) =
      .ok (.mk none none none none [("$type", .str "FRIENDS")]) :=
  rfl

/-- C3 amended: a `$`-prefixed operator key that is not a declared field of
the validation context is retained unchanged as an extra key of the
validated expression (`Extra.allow`), not dropped; the remainder of the
expression validates as if the key were absent (here: the node fields stay
unset, and the relationship hop count keeps its default 1). -/
theorem claim_C3_theorem (k1 k2 : String) (v1 v2 : Value)
    (hk1d : isDollarKey k1 = true) (hk1 : k1 ∉ nodeAliasKeys)
    (hk2d : isDollarKey k2 = true) (hk2 : k2 ∉ relationshipAliasKeys) :
    NodeValidator.parse_obj (.dict [(k1, v1)]) =
      .ok (.mk none none none none [(k1, v1)]) ∧
    RelationshipValidator.parse_obj (.dict [(k2, v2)]) =
      .ok { element_id_operator := none, id_operator := none,
            type_operator := none, hops_operator := some 1,
            extras := [(k2, v2)] } := by
  simp only [nodeAliasKeys, List.mem_cons, List.not_mem_nil, or_false,
    not_or] at hk1
  obtain ⟨n1, n2, n3, n4⟩ := hk1
  simp only [relationshipAliasKeys, List.mem_cons, List.not_mem_nil, or_false,
    not_or] at hk2
  obtain ⟨m1, m2, m3, m4⟩ := hk2
  have b1 : (k1 == "$elementId") = false := by simp [n1]
  have b2 : (k1 == "$id") = false := by simp [n2]
  have b3 : (k1 == "$labels") = false := by simp [n3]
  have b4 : (k1 == "$pattern") = false := by simp [n4]
  have c1 : (k2 == "$elementId") = false := by simp [m1]
  have c2 : (k2 == "$id") = false := by simp [m2]
  have c3 : (k2 == "$type") = false := by simp [m3]
  have c4 : (k2 == "$hops") = false := by simp [m4]
  constructor
  · have h64 : NodeValidator.parse_obj (.dict [(k1, v1)]) = parseNVbody
        (fun xs => xs.mapM (fun x =>
          parseNPVbody (fun nv => parseNV 63 nv) (63 + 1) x))
        (63 + 1) [(k1, v1)] := parseNV_dict 63 [(k1, v1)]
    rw [h64]
    simp only [parseNVbody, lookupKey, n1, n2, n3, n4, if_false,
      typedField, labelsField]
    simp [_validate_properties, hk1d, nodeAliasKeys, List.filter,
      List.contains, List.elem, b1, b2, b3, b4]
  · simp only [RelationshipValidator.parse_obj, defaultFuel,
      RelationshipValidator.parse, lookupKey, m1, m2, m3, m4, if_false,
      typedField, hopsField]
    simp [_validate_properties, hk2d, relationshipAliasKeys, List.filter,
      List.contains, List.elem, c1, c2, c3, c4]

/-- C3 witness: the amended statement instantiated at the claim's examples:
`$type` under NodeContext and `$labels` under RelationshipContext, both
retained. -/
theorem claim_C3_witness :
    NodeValidator.parse_obj (.dict [("$type", .str "FRIENDS")]) =
      .ok (.mk none none none none [("$type", .str "FRIENDS")]) ∧
    RelationshipValidator.parse_obj (.dict [("$labels", .list [.str "Person"])]) =
      .ok { element_id_operator := none, id_operator := none,
            type_operator := none, hops_operator := some 1,
            extras := [("$labels", .list [.str "Person"])] } :=
  claim_C3_theorem "$type" "$labels" (.str "FRIENDS") (.list [.str "Person"])
    (by decide) (by decide) (by decide) (by decide)

/-- The aliases of the declared `ExpressionValidator` fields, in pydantic's
collected order. -/
def expressionAliasKeys : List String :=
  ["$eq", "$ne", "$in", "$contains", "$startsWith", "$endsWith", "$regex",
   "$gt", "$gte", "$lt", "$lte", "$and", "$or", "$xor", "$not", "$all",
   "$size", "$exists"]

/-- Unfolding step of the fueled expression validation at a mapping input. -/
theorem parseELcore_dict (fuel : Nat) (b : Bool) (kvs : List (String × Value)) :
    parseELcore (fuel + 1) b (.dict kvs) = parseELbody
      (fun x =>
        match parseELcore fuel true x with
        | .ok d => .ok d
        | .error _ => parseELcore fuel false x)
      (fun x => parseELcore fuel true x) b
      (lookupKey "$eq" kvs) (lookupKey "$ne" kvs) (lookupKey "$in" kvs)
      (lookupKey "$contains" kvs) (lookupKey "$startsWith" kvs)
      (lookupKey "$endsWith" kvs) (lookupKey "$regex" kvs)
      (lookupKey "$gt" kvs) (lookupKey "$gte" kvs) (lookupKey "$lt" kvs)
      (lookupKey "$lte" kvs) (lookupKey "$and" kvs) (lookupKey "$or" kvs)
      (lookupKey "$xor" kvs) (lookupKey "$not" kvs) (lookupKey "$all" kvs)
      (lookupKey "$size" kvs) (lookupKey "$exists" kvs) := rfl

/-- Expression validation only consults the declared aliases of the mapping,
so an entry under any other key is invisible to it. -/
theorem parseELcore_skip (fuel : Nat) (b : Bool) (bk : String) (bv : Value)
    (rest : List (String × Value)) (h : bk ∉ expressionAliasKeys) :
    parseELcore fuel b (.dict ((bk, bv) :: rest)) =
      parseELcore fuel b (.dict rest) := by
  simp only [expressionAliasKeys, List.mem_cons, List.not_mem_nil, or_false,
    not_or] at h
  obtain ⟨e1, e2, e3, e4, e5, e6, e7, e8, e9, e10, e11, e12, e13, e14, e15,
    e16, e17, e18⟩ := h
  cases fuel with
  | zero => rfl
  | succ f =>
    rw [parseELcore_dict, parseELcore_dict]
    simp only [lookupKey, e1, e2, e3, e4, e5, e6, e7, e8, e9, e10, e11, e12,
      e13, e14, e15, e16, e17, e18, if_false]

/-- C5: an operator key inside a property sub-mapping that is not a declared
`ExpressionValidator` field is silently dropped without affecting or failing
the validation of the sub-mapping (default `Extra.ignore`), and in
particular the claim's NodeContext instance: validating the property `name`
bound to the sub-mapping with `$bogus` and `$eq` yields exactly the result
of validating it bound to the sub-mapping with `$eq` alone. -/
theorem claim_C5_theorem (bk : String) (bv : Value)
    (rest : List (String × Value)) (_hbk : isDollarKey bk = true)
    (h : bk ∉ expressionAliasKeys) :
    (∀ fuel : Nat, ExpressionValidator.parse fuel (.dict ((bk, bv) :: rest)) =
      ExpressionValidator.parse fuel (.dict rest)) ∧
    NodeValidator.parse_obj
        (.dict [("name", .dict [("$bogus", .str "x"), ("$eq", .str "Alice")])]) =
      NodeValidator.parse_obj (.dict [("name", .dict [("$eq", .str "Alice")])]) :=
  ⟨fun fuel => parseELcore_skip fuel true bk bv rest h, rfl⟩

/-- C5 witness: the statement instantiated at the claim's own sub-mapping,
with the unknown key `$bogus` dropped beside the surviving `$eq`. -/
theorem claim_C5_witness :
    ExpressionValidator.parse 64
        (.dict [("$bogus", .str "x"), ("$eq", .str "Alice")]) =
      ExpressionValidator.parse 64 (.dict [("$eq", .str "Alice")]) :=
  ( claim_C5_theorem "$bogus" (.str "x") [("$eq", .str "Alice")]
    (by decide) (by decide)).1 64

/-- C8: validating the expression binding `$gt` at 18 to the property `age`
under NodeContext and lowering it with entity reference `e` produces exactly
the fragment with the property path, the `>` template and the fresh
parameter `$param_0`, and exactly the parameter mapping binding `param_0` to
18. -/
theorem claim_C8_theorem :
    (NodeValidator.parse_obj (.dict [("age", .dict [("$gt", .int 18)])])).map
        (lowerNodeProperties "e") =
      .ok ("e.age > $param_0", [("param_0", Value.int 18)]) :=
  rfl
